import Mathlib

/-!
Verification of the vigyantra resume-scanner service against its
natural-language specification.

The development shallowly embeds the Python sources:
  * `python-service/scanners/privacy_scanner.py`  (PrivacyScanner)
  * `python-service/scanners/link_scanner.py`     (LinkScanner)
  * `python-service/parsers/resume_parser.py`     (ResumeParser statistics)
  * `python-service/api.py`                       (PDF extraction fallback,
                                                   scan-resume response)
Text is modelled as `List Char`.  The regular expressions of the source are
embedded as terms of a small `Regex` AST together with a fuel-bounded
backtracking matcher `mrun` that reproduces Python `re` leftmost-greedy
semantics for the constructs those patterns use (character classes, literals,
greedy bounded/unbounded repetition, alternation, one capturing group, and
the `\b` word-boundary assertion).  `pyFindAll` reproduces `re.findall`,
including the rule that a pattern with exactly one capturing group yields the
group's text (the empty string when the group did not participate).
-/

namespace Vigyantra

/-- Regular-expression AST covering the constructs used by the source's
patterns.  `rep a lo hi` is greedy repetition with lower bound `lo` and
optional upper bound `hi` (`none` = unbounded); `grp` is the (single)
capturing group; `wordB` is the `\b` assertion. -/
inductive Regex where
  | eps : Regex
  | cls (p : Char → Bool) : Regex
  | seq (a b : Regex) : Regex
  | alt (a b : Regex) : Regex
  | rep (a : Regex) (lo : Nat) (hi : Option Nat) : Regex
  | grp (a : Regex) : Regex
  | wordB : Regex

namespace Regex

/-- Sequence of several regexes. -/
def seqs (rs : List Regex) : Regex := rs.foldr Regex.seq Regex.eps

/-- A literal character. -/
def lit (c : Char) : Regex := Regex.cls (fun d => d == c)

/-- A literal string. -/
def lits (s : List Char) : Regex := seqs (s.map lit)

/-- Greedy `?` (zero or one). -/
def opt (a : Regex) : Regex := Regex.rep a 0 (some 1)

/-- Exactly `n` repetitions (`\{n\}`). -/
def repN (a : Regex) (n : Nat) : Regex := Regex.rep a n (some n)

/-- Structural size of a regex, used to pick a sufficient matcher fuel. -/
def size : Regex → Nat
  | .eps => 1
  | .cls _ => 1
  | .seq a b => a.size + b.size + 1
  | .alt a b => a.size + b.size + 1
  | .rep a _ _ => a.size + 1
  | .grp a => a.size + 1
  | .wordB => 1

end Regex

/-- Python `\w` (word character) restricted to ASCII input:
letters, digits and underscore. -/
def isWordChar (c : Char) : Bool := c.isAlpha || c.isDigit || c == '_'

/-- Word-character test on an optional character; the absent character at a
text edge counts as a non-word character. -/
def isWordCharOpt : Option Char → Bool
  | none => false
  | some c => isWordChar c

/-- The `\b` assertion holds between `pre` (reversed consumed input) and the
remaining input `s` iff exactly one neighbour is a word character. -/
def atWordBoundary (pre s : List Char) : Bool :=
  isWordCharOpt pre.head? != isWordCharOpt s.head?

/-- First-some choice on optional captures. -/
def orElseO (a b : Option (List Char)) : Option (List Char) :=
  match a with
  | some x => some x
  | none => b

/-- Decrement an optional repetition upper bound. -/
def decHi : Option Nat → Option Nat
  | none => none
  | some n => some (n - 1)

/-- One backtracking match step.  `mrun fuel r pre s` returns, in
backtracking priority order (greedy, left alternative first — the order in
which Python's `re` engine explores), the list of ways `r` can match a
prefix of `s`; each result is `(consumed, rest, capture)` with
`s = consumed ++ rest` and `capture` the text of the capturing group when it
participated.  `pre` is the already-consumed input, reversed, used only by
the `\b` assertion.  `fuel` bounds recursion depth; it only cuts searches
deeper than `regex size + input length`, which none of the embedded
patterns reach on any input. -/
def mrun : Nat → Regex → List Char → List Char →
    List (List Char × List Char × Option (List Char))
  | 0, _, _, _ => []
  | fuel + 1, r, pre, s =>
    match r with
    | .eps => [([], s, none)]
    | .cls p =>
      match s with
      | [] => []
      | c :: rest => if p c then [([c], rest, none)] else []
    | .seq a b =>
      (mrun fuel a pre s).flatMap fun x =>
        (mrun fuel b (x.1.reverse ++ pre) x.2.1).map fun y =>
          (x.1 ++ y.1, y.2.1, orElseO x.2.2 y.2.2)
    | .alt a b => mrun fuel a pre s ++ mrun fuel b pre s
    | .grp a =>
      (mrun fuel a pre s).map fun x => (x.1, x.2.1, some x.1)
    | .wordB => if atWordBoundary pre s then [([], s, none)] else []
    | .rep a lo hi =>
      match hi with
      | some 0 => [([], s, none)]
      | _ =>
        let step :=
          (mrun fuel a pre s).flatMap fun x =>
            (mrun fuel (.rep a (lo - 1) (decHi hi)) (x.1.reverse ++ pre)
                x.2.1).map fun y =>
              (x.1 ++ y.1, y.2.1, orElseO y.2.2 x.2.2)
        let stop := if lo == 0 then [([], s, none)] else []
        step ++ stop

/-- Fuel sufficient for `mrun` on the embedded patterns: recursion depth is
bounded by the regex size plus the number of repetition iterations, and every
repetition body of the embedded patterns consumes at least one character. -/
def mrunFuel (r : Regex) (s : List Char) : Nat :=
  r.size + s.length + 4

/-- The Python `re` match attempt at one position: the highest-priority way
`r` matches a prefix of `s` (leftmost-greedy semantics). -/
def matchAt (r : Regex) (pre s : List Char) :
    Option (List Char × List Char × Option (List Char)) :=
  (mrun (mrunFuel r s) r pre s).head?

/-- Worker for `pyFindAll`: scan positions left to right, at each position
take the match attempt; on success emit the full match (or, when the pattern
has a capturing group, the group text, `[]` when the group did not
participate) and resume after the match, advancing one character past an
empty match; on failure advance one character. -/
def findAllAux : Nat → Regex → Bool → List Char → List Char → List (List Char)
  | 0, _, _, _, _ => []
  | fuel + 1, r, hasGrp, pre, s =>
    match matchAt r pre s with
    | some (consumed, rest, g) =>
      let item := if hasGrp then g.getD [] else consumed
      if consumed.isEmpty then
        match s with
        | [] => [item]
        | c :: s' => item :: findAllAux fuel r hasGrp (c :: pre) s'
      else item :: findAllAux fuel r hasGrp (consumed.reverse ++ pre) rest
    | none =>
      match s with
      | [] => []
      | c :: s' => findAllAux fuel r hasGrp (c :: pre) s'

/-- Python `re.findall(pattern, s)`.  `hasGrp` records whether the pattern
has exactly one capturing group, in which case `findall` returns the group
texts instead of the full matches. -/
def pyFindAll (r : Regex) (hasGrp : Bool) (s : List Char) : List (List Char) :=
  findAllAux (s.length + 1) r hasGrp [] s

/-- Python `re.search(pattern, s) is not None`: some position of `s` has a
match. -/
def pySearch (r : Regex) (s : List Char) : Bool :=
  !(pyFindAll r false s).isEmpty

/-- Ordered alternation `(?:a|b|...)`, tried left to right. -/
def alts : List Regex → Regex
  | [] => Regex.eps
  | [r] => r
  | r :: rest => Regex.alt r (alts rest)

/-- A literal word as a regex. -/
def litstr (s : String) : Regex := Regex.lits s.toList

/-- Python `\d` on ASCII input. -/
def digitCls : Regex := Regex.cls Char.isDigit

/-- Python `\s` on ASCII input: space, tab, newline, carriage return,
form feed, vertical tab. -/
def isPyWs (c : Char) : Bool :=
  c == ' ' || c == '\t' || c == '\n' || c == '\r' ||
    c == Char.ofNat 12 || c == Char.ofNat 11

/-! ### The PrivacyScanner patterns (privacy_scanner.py, lines 7-14) -/

/-- `\b[A-Za-z0-9._%+-]+@[A-Za-z0-9.-]+\.[A-Z|a-z]{2,}\b` -/
def emailRe : Regex :=
  Regex.seqs
    [ .wordB
    , .rep (.cls fun c => c.isAlpha || c.isDigit || c == '.' || c == '_' ||
        c == '%' || c == '+' || c == '-') 1 none
    , .lit '@'
    , .rep (.cls fun c => c.isAlpha || c.isDigit || c == '.' || c == '-') 1 none
    , .lit '.'
    , .rep (.cls fun c => c.isAlpha || c == '|') 2 none
    , .wordB ]

/-- `[-.\s]` -/
def phoneSepCls : Regex := .cls fun c => c == '-' || c == '.' || isPyWs c

/-- `(\+?\d{1,3}[-.\s]?)?\(?\d{3}\)?[-.\s]?\d{3}[-.\s]?\d{4}` — note the one
capturing group around the optional country-code prefix. -/
def phoneRe : Regex :=
  Regex.seqs
    [ .opt (.grp (Regex.seqs
        [.opt (.lit '+'), .rep digitCls 1 (some 3), .opt phoneSepCls]))
    , .opt (.lit '(')
    , .repN digitCls 3
    , .opt (.lit ')')
    , .opt phoneSepCls
    , .repN digitCls 3
    , .opt phoneSepCls
    , .repN digitCls 4 ]

/-- `\b\d{3}-\d{2}-\d{4}\b` -/
def ssnRe : Regex :=
  Regex.seqs
    [ .wordB, .repN digitCls 3, .lit '-', .repN digitCls 2, .lit '-'
    , .repN digitCls 4, .wordB ]

/-- `[-\s]` -/
def ccSepCls : Regex := .cls fun c => c == '-' || isPyWs c

/-- `\b\d{4}[-\s]?\d{4}[-\s]?\d{4}[-\s]?\d{4}\b` -/
def creditCardRe : Regex :=
  Regex.seqs
    [ .wordB, .repN digitCls 4, .opt ccSepCls, .repN digitCls 4
    , .opt ccSepCls, .repN digitCls 4, .opt ccSepCls, .repN digitCls 4
    , .wordB ]

/-- `\d+\s+[A-Za-z\s]+(?:Street|St|Avenue|Ave|Road|Rd|Boulevard|Blvd|Lane|Ln|Drive|Dr)` -/
def addressRe : Regex :=
  Regex.seqs
    [ .rep digitCls 1 none
    , .rep (.cls isPyWs) 1 none
    , .rep (.cls fun c => c.isAlpha || isPyWs c) 1 none
    , alts (["Street", "St", "Avenue", "Ave", "Road", "Rd", "Boulevard",
        "Blvd", "Lane", "Ln", "Drive", "Dr"].map litstr) ]

/-- `[/\-]` -/
def slashDashCls : Regex := .cls fun c => c == '/' || c == '-'

/-- `\b(?:\d{1,2}[/\-]\d{1,2}[/\-]\d{2,4}|\d{4}[/\-]\d{1,2}[/\-]\d{1,2})\b` -/
def dateOfBirthRe : Regex :=
  Regex.seqs
    [ .wordB
    , .alt
        (Regex.seqs [.rep digitCls 1 (some 2), slashDashCls
          , .rep digitCls 1 (some 2), slashDashCls, .rep digitCls 2 (some 4)])
        (Regex.seqs [.repN digitCls 4, slashDashCls
          , .rep digitCls 1 (some 2), slashDashCls, .rep digitCls 1 (some 2)])
    , .wordB ]

/-! ### PrivacyScanner (privacy_scanner.py) -/

/-- One entry of the privacy scan's issue list (privacy_scanner.py,
lines 34-40). -/
structure PrivacyIssue where
  type : String
  count : Nat
  risk_level : String
  examples : List (List Char)
  recommendation : String
deriving DecidableEq

/-- The `summary` block of the privacy scan result (privacy_scanner.py,
lines 48-52). -/
structure PrivacySummary where
  total_types : Nat
  high_risk_items : Nat
  total_exposures : Nat
deriving DecidableEq

/-- Privacy scan result (privacy_scanner.py, lines 45-53). -/
structure PrivacyScanOut where
  issues : List PrivacyIssue
  risk_level : String
  summary : PrivacySummary
deriving DecidableEq

/-- The `self.patterns` dict in Python insertion order, each with its
compiled regex and whether the pattern has exactly one capturing group
(only `phone` does), which determines what `findall` returns. -/
def privacyPatterns : List (String × Regex × Bool) :=
  [ ("email", emailRe, false)
  , ("phone", phoneRe, true)
  , ("ssn", ssnRe, false)
  , ("credit_card", creditCardRe, false)
  , ("address", addressRe, false)
  , ("date_of_birth", dateOfBirthRe, false) ]

/-- The `self.risk_levels` dict (privacy_scanner.py, lines 17-24). -/
def risk_levels : List (String × String) :=
  [ ("ssn", "high"), ("credit_card", "high"), ("date_of_birth", "medium")
  , ("address", "medium"), ("phone", "low"), ("email", "low") ]

/-- Python `dict.get(key, default)` on an association list. -/
def dictGetD (m : List (String × String)) (k d : String) : String :=
  ((m.find? (·.1 == k)).map (·.2)).getD d

/-- `_get_recommendation` (privacy_scanner.py, lines 66-76). -/
def get_recommendation (info_type : String) : String :=
  dictGetD
    [ ("email", "Consider using a professional email address only. Avoid personal email addresses.")
    , ("phone", "Include only necessary contact information. Consider using a professional phone number.")
    , ("ssn", "CRITICAL: Remove Social Security Number immediately. Never include SSN in resumes.")
    , ("credit_card", "CRITICAL: Remove credit card information immediately. This should never be in a resume.")
    , ("address", "Consider including only city and state. Full home address may not be necessary.")
    , ("date_of_birth", "Remove date of birth. This information can lead to age discrimination.") ]
    info_type "Consider if this information is necessary for the resume."

/-- Python `str.replace` of underscores by spaces. -/
def underscoreToSpace (s : List Char) : List Char :=
  s.map fun c => if c == '_' then ' ' else c

/-- Python `str.title()` on ASCII input: a letter is uppercased when it
follows a non-letter (or starts the string) and lowercased otherwise. -/
def pyTitle : Bool → List Char → List Char
  | _, [] => []
  | prevAlpha, c :: rest =>
    (if c.isAlpha then (if prevAlpha then c.toLower else c.toUpper) else c) ::
      pyTitle c.isAlpha rest

/-- `info_type.replace('_', ' ').title()` (privacy_scanner.py, line 35). -/
def issueLabel (info_type : String) : String :=
  String.mk (pyTitle false (underscoreToSpace info_type.toList))

/-- `_calculate_privacy_risk` (privacy_scanner.py, lines 55-64). -/
def calculatePrivacyRisk (issues : List PrivacyIssue) : String :=
  if issues.any (·.risk_level == "high") then "high"
  else if issues.any (·.risk_level == "medium") then "medium"
  else if !issues.isEmpty then "low"
  else "none"

/-- The issue dict appended for a matching category (privacy_scanner.py,
lines 34-40): the titled label, the match count, the risk level from the
table, the first three `findall` results as examples, and the
recommendation. -/
def mkPrivacyIssue (text : List Char) (pat : String × Regex × Bool) :
    PrivacyIssue :=
  let ms := pyFindAll pat.2.1 pat.2.2 text
  { type := issueLabel pat.1
  , count := ms.length
  , risk_level := dictGetD risk_levels pat.1 "low"
  , examples := ms.take 3
  , recommendation := get_recommendation pat.1 }

/-- `PrivacyScanner.scan` (privacy_scanner.py, lines 26-53): one issue per
pattern category with at least one `findall` match, then the overall risk
level and summary. -/
def privacyScan (text : List Char) : PrivacyScanOut :=
  let issues := privacyPatterns.filterMap fun pat =>
    if !(pyFindAll pat.2.1 pat.2.2 text).isEmpty then
      some (mkPrivacyIssue text pat)
    else none
  { issues := issues
  , risk_level := calculatePrivacyRisk issues
  , summary :=
    { total_types := issues.length
    , high_risk_items := (issues.filter (·.risk_level == "high")).length
    , total_exposures := (issues.map (·.count)).sum } }

/-! ### LinkScanner (link_scanner.py) -/

/-- `[0-9a-fA-F]` -/
def hexCls : Regex :=
  .cls fun c => c.isDigit || ('a' ≤ c && c ≤ 'f') || ('A' ≤ c && c ≤ 'F')

/-- `http[s]?://(?:[a-zA-Z]|[0-9]|[$-_@.&+]|[!*\\(\\),]|(?:%[0-9a-fA-F][0-9a-fA-F]))+`
(link_scanner.py, lines 9-11).  `[$-_@.&+]` is the character range from
`$` to `_` together with `@ . & +` (all of which already lie in the range);
`[!*\\(\\),]` contains the characters `! * \ ( ) ,`. -/
def urlRe : Regex :=
  Regex.seqs
    [ litstr "http"
    , .opt (.lit 's')
    , litstr "://"
    , .rep
        (alts
          [ .cls Char.isAlpha
          , .cls Char.isDigit
          , .cls fun c => ('$' ≤ c && c ≤ '_') || c == '@' || c == '.' ||
              c == '&' || c == '+'
          , .cls fun c => c == '!' || c == '*' || c == '\\' || c == '(' ||
              c == ')' || c == ','
          , Regex.seqs [.lit '%', hexCls, hexCls] ])
        1 none ]

/-- `self.suspicious_domains` (link_scanner.py, lines 14-20). -/
def suspicious_domains : List (List Char) :=
  [ "bit.ly".toList, "tinyurl.com".toList, "short.link".toList
  , "malware-test.com".toList, "phishing-test.com".toList ]

/-- `self.safe_domains` (link_scanner.py, lines 23-29). -/
def safe_domains : List (List Char) :=
  [ "linkedin.com".toList, "github.com".toList, "google.com".toList
  , "stackoverflow.com".toList, "medium.com".toList ]

/-- `shortener_domains` (link_scanner.py, line 77). -/
def shortener_domains : List (List Char) :=
  [ "bit.ly".toList, "tinyurl.com".toList, "t.co".toList, "goo.gl".toList
  , "short.link".toList ]

/-- Python's `needle in hay` substring test. -/
def containsSub (hay needle : List Char) : Bool :=
  needle.isPrefixOf hay ||
    match hay with
    | [] => false
    | _ :: t => containsSub t needle

/-- `[0-9]{1,3}\.[0-9]{1,3}\.[0-9]{1,3}\.[0-9]{1,3}` (link_scanner.py,
line 86). -/
def ipRe : Regex :=
  Regex.seqs
    [ .rep digitCls 1 (some 3), .lit '.', .rep digitCls 1 (some 3), .lit '.'
    , .rep digitCls 1 (some 3), .lit '.', .rep digitCls 1 (some 3) ]

/-- `urlparse(url).netloc` for the `scheme://authority/...`-shaped URLs the
URL pattern produces: the text between the first `//` and the next
`/`, `?` or `#`. -/
def netlocOf : List Char → List Char
  | [] => []
  | '/' :: '/' :: rest => rest.takeWhile fun c => c ≠ '/' && c ≠ '?' && c ≠ '#'
  | _ :: rest => netlocOf rest

/-- Outcome of the reachability probe
(`session.head(url)` inside `aiohttp.ClientSession`, link_scanner.py,
lines 102-116): a response with its status code, or any timeout /
connection failure / exception. -/
inductive ProbeOutcome where
  | status (code : Nat) : ProbeOutcome
  | failure : ProbeOutcome
deriving DecidableEq

/-- Result dict of `_analyze_url` (link_scanner.py). -/
structure UrlAnalysis where
  is_suspicious : Bool
  severity : String
  reason : String
deriving DecidableEq

/-- `LinkScanner._analyze_url` (link_scanner.py, lines 62-129), with the
network left abstract as a `probe` oracle.  The returned Boolean records
whether the reachability probe was performed.  The classification rules are
tried in source order: suspicious-domain substring, shortener substring,
dotted-decimal IP search, safe-domain substring, then the probe. -/
def analyzeUrl (probe : List Char → ProbeOutcome) (url : List Char) :
    UrlAnalysis × Bool :=
  let domain := (netlocOf url).map Char.toLower
  if suspicious_domains.any (containsSub domain) then
    ({ is_suspicious := true, severity := "high"
     , reason := "URL uses suspicious domain: " ++ String.mk domain }, false)
  else if shortener_domains.any (containsSub domain) then
    ({ is_suspicious := true, severity := "medium"
     , reason := "URL uses link shortener which could hide malicious destination" }, false)
  else if pySearch ipRe domain then
    ({ is_suspicious := true, severity := "medium"
     , reason := "URL uses IP address instead of domain name" }, false)
  else if safe_domains.any (containsSub domain) then
    ({ is_suspicious := false, severity := "none"
     , reason := "URL uses known safe domain" }, false)
  else
    match probe url with
    | .status code =>
      if code ≥ 400 then
        ({ is_suspicious := true, severity := "low"
         , reason := "URL returns error status: " ++ toString code }, true)
      else
        ({ is_suspicious := false, severity := "none"
         , reason := "URL appears to be safe" }, true)
    | .failure =>
      ({ is_suspicious := true, severity := "low"
       , reason := "URL is not accessible or takes too long to respond" }, true)

/-- Specification-side classification of a probe outcome, following the
amended spec words: a response with status at least 400 is suspicious with
severity low; a smaller status is not suspicious; a timeout, connection
failure or probe exception is suspicious with severity low. -/
def expectedProbeAnalysis : ProbeOutcome → UrlAnalysis
  | .status code =>
    if code ≥ 400 then
      { is_suspicious := true, severity := "low"
      , reason := "URL returns error status: " ++ toString code }
    else
      { is_suspicious := false, severity := "none"
      , reason := "URL appears to be safe" }
  | .failure =>
    { is_suspicious := true, severity := "low"
    , reason := "URL is not accessible or takes too long to respond" }

/-- A vulnerability entry produced by `LinkScanner.scan`
(link_scanner.py, lines 45-51). -/
structure LinkVuln where
  type : String
  severity : String
  description : String
  details : String
  recommendation : String
deriving DecidableEq

/-- The `url_summary` block (link_scanner.py, lines 55-59). -/
structure UrlSummary where
  total_urls : Nat
  suspicious_urls : Nat
  analyzed_urls : List (List Char)
deriving DecidableEq

/-- Result of `LinkScanner.scan`: the early return at line 39 produces a
dict with no `url_summary` key, modelled by `none`. -/
structure LinkScanOut where
  vulnerabilities : List LinkVuln
  url_summary : Option UrlSummary
deriving DecidableEq

/-- `LinkScanner.scan` (link_scanner.py, lines 31-60), with the network as
a `probe` oracle. -/
def linkScan (probe : List Char → ProbeOutcome) (text : List Char) :
    LinkScanOut :=
  let urls := pyFindAll urlRe false text
  if urls.isEmpty then { vulnerabilities := [], url_summary := none }
  else
    let vulnerabilities := urls.filterMap fun url =>
      let a := (analyzeUrl probe url).1
      if a.is_suspicious then
        some { type := "Suspicious URL"
             , severity := a.severity
             , description := "Potentially malicious URL detected: " ++ String.mk url
             , details := a.reason
             , recommendation := "Verify URL safety before including in resume. Consider using official website links instead." }
      else none
    { vulnerabilities := vulnerabilities
    , url_summary := some
        { total_urls := urls.length
        , suspicious_urls := vulnerabilities.length
        , analyzed_urls := urls } }

/-! ### PDF extraction fallback (api.py, `extract_text_from_pdf`) -/

/-- The primary (pdfplumber) accumulation loop (api.py, lines 26-30):
`text += page_text + "\n"` for each page whose `extract_text()` is truthy
(`None` and the empty string are skipped). -/
def pdfplumberText (pPages : List (Option (List Char))) : List Char :=
  pPages.foldl
    (fun t pt =>
      match pt with
      | some p => if p.isEmpty then t else t ++ p ++ ['\n']
      | none => t)
    []

/-- The fallback (PyPDF2) accumulation loop (api.py, lines 35-38):
`text += page.extract_text() + "\n"` for each page, continuing from the
`text` variable as it stands when the fallback starts. -/
def pypdf2Text (start : List Char) (sPages : List (List Char)) : List Char :=
  sPages.foldl (fun t p => t ++ p ++ ['\n']) start

/-- `extract_text_from_pdf` (api.py, lines 22-41).  The two PDF libraries
are abstracted by their observable behaviour on the given file:
`pPages` are the page texts the pdfplumber loop produced before its first
failure point (all pages when `pFail = false`); `pFail` says whether
pdfplumber raised anywhere (opening or mid-loop); `sPages`/`sFail` play the
same roles for the PyPDF2 fallback, and `sErr` is `str(e2)` of the
fallback's exception.  Note the Python `text` variable is *not* reset
between the two attempts. -/
def extract_text_from_pdf (pPages : List (Option (List Char))) (pFail : Bool)
    (sPages : List (List Char)) (sFail : Bool) (sErr : String) :
    Except String (List Char) :=
  let text := pdfplumberText pPages
  if pFail = false then .ok text
  else
    let text2 := pypdf2Text text sPages
    if sFail = false then .ok text2
    else .error ("Could not extract text: " ++ sErr)

/-! ### Scan-resume response (api.py, `scan_resume` success path) -/

/-- `candidate_info` (api.py, lines 91-95). -/
structure CandidateInfo where
  name : String
  email : String
  phone : String
deriving DecidableEq

/-- One entry of the hard-coded `privacy_issues` list in the response
(api.py, lines 150-153). -/
structure PrivacyCountEntry where
  type : String
  count : Nat
deriving DecidableEq

/-- The JSON object returned by `scan_resume` on success
(api.py, lines 140-155).  The `vulnerabilities` field is the literal empty
list in the source. -/
structure ScanResumeResponse where
  success : Bool
  filename : String
  file_type : String
  candidate_info : CandidateInfo
  extracted_skills : List String
  experience_years : Nat
  risk_level : String
  risk_score : Nat
  vulnerabilities : List String
  privacy_issues : List PrivacyCountEntry
  summary : String
deriving DecidableEq

/-- The success path of `scan_resume` (api.py, lines 130-155) combined with
the `candidate_info` construction of `extract_resume_info` (api.py, lines
90-95): `email` is the first regex match or the sentinel `"Email not
found"`, likewise `phone`; the risk score starts at 15 and gains 10 when
fewer than 3 skills were extracted; the level comes from the `< 30 / < 60`
thresholds; the privacy-issue counts are 1 exactly when the corresponding
candidate field is not its sentinel.  The function is parameterised by the
extraction results (`emails`, `phones`, `extracted_skills`, ...). -/
def scan_resume_response (filename file_type name : String)
    (emails phones : List String) (extracted_skills : List String)
    (experience_years : Nat) : ScanResumeResponse :=
  let email := emails.head?.getD "Email not found"
  let phone := phones.head?.getD "Phone not found"
  let risk_score := if extracted_skills.length < 3 then 15 + 10 else 15
  let risk_level :=
    if risk_score < 30 then "low"
    else if risk_score < 60 then "medium" else "high"
  { success := true
  , filename := filename
  , file_type := file_type
  , candidate_info := { name := name, email := email, phone := phone }
  , extracted_skills := extracted_skills
  , experience_years := experience_years
  , risk_level := risk_level
  , risk_score := risk_score
  , vulnerabilities := []
  , privacy_issues :=
      [ { type := "Email", count := if email ≠ "Email not found" then 1 else 0 }
      , { type := "Phone", count := if phone ≠ "Phone not found" then 1 else 0 } ]
  , summary := "Successfully processed resume. Found " ++
      toString extracted_skills.length ++ " skills." }

/-! ### Content statistics (resume_parser.py, `_analyze_content`) -/

/-- Python `text.split('\n')`: newline-separated segments, including the
empty segment after a trailing newline; the empty string yields one empty
segment. -/
def pySplitNl : List Char → List (List Char)
  | [] => [[]]
  | c :: rest =>
    if c = '\n' then [] :: pySplitNl rest
    else
      match pySplitNl rest with
      | t :: ts => (c :: t) :: ts
      | [] => [[c]]

/-- Worker for Python `text.split()` (no separator): skip whitespace, and
collect maximal nonempty runs of non-whitespace characters.  `cur` is the
reversed current run. -/
def wsTokensAux : List Char → List Char → List (List Char)
  | cur, [] => if cur.isEmpty then [] else [cur.reverse]
  | cur, c :: rest =>
    if isPyWs c then
      if cur.isEmpty then wsTokensAux [] rest
      else cur.reverse :: wsTokensAux [] rest
    else wsTokensAux (c :: cur) rest

/-- Python `text.split()`. -/
def pySplitWs (s : List Char) : List (List Char) := wsTokensAux [] s

/-- The `statistics` block of `_analyze_content` (resume_parser.py, lines
92-96): `len(text)`, `len(text.split())`, `len(text.split('\n'))`. -/
structure ContentStatistics where
  character_count : Nat
  word_count : Nat
  line_count : Nat
deriving DecidableEq

/-- `_analyze_content`'s statistics computation (resume_parser.py, lines
92-96). -/
def analyzeStatistics (text : List Char) : ContentStatistics :=
  { character_count := text.length
  , word_count := (pySplitWs text).length
  , line_count := (pySplitNl text).length }

/-- Specification-side count of whitespace-delimited tokens: the number of
positions that start a token, i.e. hold a non-whitespace character whose
predecessor (or the start of the text) is whitespace.  `prevWs` says
whether the previous character was whitespace. -/
def tokenStartCount : Bool → List Char → Nat
  | _, [] => 0
  | prevWs, c :: rest =>
    (if prevWs && !isPyWs c then 1 else 0) + tokenStartCount (isPyWs c) rest

/-! ### Risk Aggregator -/

/-- Modelled from the spec: the Risk Aggregator component (spec section 4.5)
that combines the three scanners' finding counts into one bounded additive
score is not present under src — api.py only computes a placeholder
skill-count score and never calls the scanners — so its scoring rule is
taken from the spec's words: per-category contributions
min(malware x 15, 40), min(privacy x 5, 30), min(link x 10, 30), summed. -/
def aggregateRiskScore (malwareCount privacyCount linkCount : Nat) : Nat :=
  min (malwareCount * 15) 40 + min (privacyCount * 5) 30 +
    min (linkCount * 10) 30

/-- Modelled from the spec: the aggregate level thresholds — `high` when the
total is at least 70, `medium` when at least 30, otherwise `low`. -/
def riskLevelOfScore (total : Nat) : String :=
  if total ≥ 70 then "high" else if total ≥ 30 then "medium" else "low"

/-! ### Helper lemmas -/

/-- Every result of the matcher splits the input: the consumed part followed
by the rest is the input itself. -/
theorem mrun_consumed : ∀ (fuel : Nat) (r : Regex) (pre s : List Char)
    (x : List Char × List Char × Option (List Char)),
    x ∈ mrun fuel r pre s → s = x.1 ++ x.2.1 := by
  intro fuel
  induction fuel with
  | zero => intro r pre s x hx; simp [mrun] at hx
  | succ fuel ih =>
    intro r pre s x hx
    cases r with
    | eps =>
      simp only [mrun, List.mem_singleton] at hx
      subst hx; rfl
    | cls p =>
      cases s with
      | nil => simp [mrun] at hx
      | cons c rest =>
        simp only [mrun] at hx
        split at hx
        · simp only [List.mem_singleton] at hx; subst hx; rfl
        · simp at hx
    | seq a b =>
      simp only [mrun, List.mem_flatMap, List.mem_map] at hx
      obtain ⟨x1, hx1, y, hy, rfl⟩ := hx
      have h1 := ih a pre s x1 hx1
      have h2 := ih b (x1.1.reverse ++ pre) x1.2.1 y hy
      simp only [h1, h2, List.append_assoc]
    | alt a b =>
      simp only [mrun, List.mem_append] at hx
      rcases hx with hx | hx
      · exact ih a pre s x hx
      · exact ih b pre s x hx
    | grp a =>
      simp only [mrun, List.mem_map] at hx
      obtain ⟨y, hy, rfl⟩ := hx
      exact ih a pre s y hy
    | wordB =>
      simp only [mrun] at hx
      split at hx
      · simp only [List.mem_singleton] at hx; subst hx; rfl
      · simp at hx
    | rep a lo hi =>
      simp only [mrun] at hx
      split at hx
      · simp only [List.mem_singleton] at hx; subst hx; rfl
      · simp only [List.mem_append, List.mem_flatMap, List.mem_map] at hx
        rcases hx with ⟨x1, hx1, y, hy, rfl⟩ | hx
        · have h1 := ih a pre s x1 hx1
          have h2 := ih _ (x1.1.reverse ++ pre) x1.2.1 y hy
          simp only [h1, h2, List.append_assoc]
        · split at hx
          · simp only [List.mem_singleton] at hx; subst hx; rfl
          · simp at hx

/-- The match attempt splits the input at the match. -/
theorem matchAt_consumed {r : Regex} {pre s consumed rest : List Char}
    {g : Option (List Char)}
    (h : matchAt r pre s = some (consumed, rest, g)) : s = consumed ++ rest := by
  have hmem : (consumed, rest, g) ∈ mrun (mrunFuel r s) r pre s := by
    unfold matchAt at h
    exact List.mem_of_mem_head? h
  exact mrun_consumed _ _ _ _ _ hmem

/-- A list is a Boolean prefix of itself followed by anything. -/
theorem isPrefixOf_append_self : ∀ (m b : List Char),
    m.isPrefixOf (m ++ b) = true := by
  intro m b
  induction m with
  | nil => simp [List.isPrefixOf]
  | cons c m ih => simp [List.isPrefixOf, ih]

/-- `containsSub` holds for any contiguous slice of the haystack. -/
theorem containsSub_append : ∀ (a m b : List Char),
    containsSub (a ++ (m ++ b)) m = true := by
  intro a m b
  induction a with
  | nil =>
    simp only [List.nil_append]
    unfold containsSub
    rw [isPrefixOf_append_self]
    exact Bool.true_or _
  | cons c a ih =>
    show (m.isPrefixOf (c :: (a ++ (m ++ b))) ||
      containsSub (a ++ (m ++ b)) m) = true
    rw [ih, Bool.or_true]

/-- Every string emitted by `findAllAux` (full-match mode) is a contiguous
slice of the scanned input. -/
theorem findAllAux_slice : ∀ (fuel : Nat) (r : Regex) (pre s m : List Char),
    m ∈ findAllAux fuel r false pre s → ∃ a b, s = a ++ (m ++ b) := by
  intro fuel
  induction fuel with
  | zero => intro r pre s m hm; simp [findAllAux] at hm
  | succ fuel ih =>
    intro r pre s m hm
    simp only [findAllAux] at hm
    rcases hmat : matchAt r pre s with _ | ⟨consumed, rest, g⟩
    · rw [hmat] at hm
      cases s with
      | nil => simp at hm
      | cons c s' =>
        obtain ⟨a, b, hab⟩ := ih r (c :: pre) s' m hm
        exact ⟨c :: a, b, by simp [hab]⟩
    · rw [hmat] at hm
      have hsplit := matchAt_consumed hmat
      simp only [Bool.false_eq_true, if_false] at hm
      by_cases hemp : consumed.isEmpty
      · rw [if_pos hemp] at hm
        have hcons : consumed = [] := List.isEmpty_iff.mp hemp
        cases s with
        | nil =>
          simp only [List.mem_singleton] at hm
          subst hm
          exact ⟨[], [], by simp [hcons]⟩
        | cons c s' =>
          simp only [List.mem_cons] at hm
          rcases hm with rfl | hm
          · exact ⟨[], c :: s', by simp [hcons]⟩
          · obtain ⟨a, b, hab⟩ := ih r (c :: pre) s' m hm
            exact ⟨c :: a, b, by simp [hab]⟩
      · rw [if_neg hemp] at hm
        simp only [List.mem_cons] at hm
        rcases hm with rfl | hm
        · exact ⟨[], rest, hsplit⟩
        · obtain ⟨a, b, hab⟩ := ih r (consumed.reverse ++ pre) rest m hm
          exact ⟨consumed ++ a, b, by rw [hsplit, hab, List.append_assoc]⟩

/-- Every string returned by `re.findall` in full-match mode occurs verbatim
as a contiguous substring of the input. -/
theorem pyFindAll_containsSub {r : Regex} {s m : List Char}
    (hm : m ∈ pyFindAll r false s) : containsSub s m = true := by
  obtain ⟨a, b, hab⟩ := findAllAux_slice _ r [] s m hm
  rw [hab]
  exact containsSub_append a m b

/-- `all` over a mapped list tests the composite predicate. -/
theorem list_all_map {α β : Type} (l : List α) (f : α → β) (p : β → Bool) :
    (l.map f).all p = l.all (p ∘ f) := by
  induction l with
  | nil => rfl
  | cons x l ih => simp only [List.map_cons, List.all_cons, ih, Function.comp]

/-- A `filterMap` whose function is an if-some-none is a `filter` followed
by a `map`. -/
theorem filterMap_if {α β : Type} (l : List α) (p : α → Bool) (f : α → β) :
    l.filterMap (fun x => if p x then some (f x) else none) =
      (l.filter p).map f := by
  induction l with
  | nil => rfl
  | cons x l ih =>
    simp only [List.filterMap_cons, List.filter_cons]
    by_cases hx : p x <;> simp [hx, ih]

/-- The privacy scan issue list is the matching categories, mapped through
the issue constructor. -/
theorem privacyScan_issues_eq (text : List Char) :
    (privacyScan text).issues =
      (privacyPatterns.filter
        (fun pat => !(pyFindAll pat.2.1 pat.2.2 text).isEmpty)).map
        (mkPrivacyIssue text) := by
  unfold privacyScan
  exact filterMap_if privacyPatterns
    (fun pat => !(pyFindAll pat.2.1 pat.2.2 text).isEmpty)
    (mkPrivacyIssue text)

/-- `str.split of a newline` never produces the empty list. -/
theorem pySplitNl_ne_nil (t : List Char) : pySplitNl t ≠ [] := by
  cases t with
  | nil => simp [pySplitNl]
  | cons c rest =>
    simp only [pySplitNl]
    split
    · simp
    · rcases pySplitNl rest with _ | ⟨a, as⟩ <;> simp

/-- The number of newline-separated segments is the newline count plus
one. -/
theorem length_pySplitNl : ∀ (t : List Char),
    (pySplitNl t).length = t.count '\n' + 1 := by
  intro t
  induction t with
  | nil => rfl
  | cons c rest ih =>
    by_cases hc : c = '\n'
    · subst hc
      simp [pySplitNl, List.count_cons, ih]
    · rcases hsplit : pySplitNl rest with _ | ⟨a, as⟩
      · exact absurd hsplit (pySplitNl_ne_nil rest)
      · simp only [pySplitNl, if_neg hc, hsplit]
        rw [hsplit] at ih
        simp only [List.length_cons] at ih ⊢
        rw [List.count_cons]
        simp [hc, ih]

/-- Length of the whitespace-token worker in terms of token starts: `cur`
holds a partially read token exactly when the previous character was not
whitespace. -/
theorem length_wsTokensAux : ∀ (s cur : List Char),
    (wsTokensAux cur s).length =
      tokenStartCount cur.isEmpty s + (if cur.isEmpty then 0 else 1) := by
  intro s
  induction s with
  | nil =>
    intro cur
    cases cur <;> simp [wsTokensAux, tokenStartCount]
  | cons c rest ih =>
    intro cur
    by_cases hw : isPyWs c
    · cases cur with
      | nil =>
        simp only [wsTokensAux, if_pos hw, List.isEmpty_nil, if_pos rfl]
        simp [tokenStartCount, hw, ih []]
      | cons d cur' =>
        simp only [wsTokensAux, if_pos hw]
        simp [tokenStartCount, hw, ih [], List.isEmpty_cons]
    · cases cur with
      | nil =>
        simp only [wsTokensAux, if_neg hw]
        simp [tokenStartCount, hw, ih [c], List.isEmpty_cons]
        omega
      | cons d cur' =>
        simp only [wsTokensAux, if_neg hw]
        simp [tokenStartCount, hw, ih (c :: d :: cur'), List.isEmpty_cons]

/-- The PyPDF2 accumulation starting from `start` is `start` followed by
the accumulation from scratch. -/
theorem pypdf2Text_append : ∀ (sPages : List (List Char)) (start : List Char),
    pypdf2Text start sPages = start ++ pypdf2Text [] sPages := by
  intro sPages
  induction sPages with
  | nil => intro start; simp [pypdf2Text]
  | cons p ps ih =>
    intro start
    show pypdf2Text (start ++ p ++ ['\n']) ps =
      start ++ pypdf2Text ([] ++ p ++ ['\n']) ps
    rw [ih (start ++ p ++ ['\n']), ih ([] ++ p ++ ['\n'])]
    simp [List.append_assoc]

/-! ### Claim theorems -/

/-- C1: the Risk Aggregator computes the overall score as
min(malware x 15, 40) + min(privacy x 5, 30) + min(link x 10, 30) and
derives the level as high when the total is at least 70, medium when at
least 30, else low; 3 malware vulnerabilities with no other findings give
total 40 and level medium, and no findings give total 0 and level low. -/
theorem C1_risk_aggregator :
    aggregateRiskScore 3 0 0 = 40 ∧
    riskLevelOfScore (aggregateRiskScore 3 0 0) = "medium" ∧
    aggregateRiskScore 0 0 0 = 0 ∧
    riskLevelOfScore (aggregateRiskScore 0 0 0) = "low" ∧
    (∀ m p l : Nat, aggregateRiskScore m p l =
      min (m * 15) 40 + min (p * 5) 30 + min (l * 10) 30) ∧
    (∀ t : Nat, riskLevelOfScore t =
      if t ≥ 70 then "high" else if t ≥ 30 then "medium" else "low") :=
  ⟨by decide, by decide, by decide, by decide, fun _ _ _ => rfl, fun _ => rfl⟩

/-- C3, counterexample: the URL http://bit.ly.github.com has a domain that
matches the known-safe list by the substring rule (it contains github.com),
yet the scanner classifies it suspicious with severity high — the
suspicious-domain rule is checked first — and it appears in the
vulnerabilities output. -/
theorem C3_counterexample :
    safe_domains.any (containsSub
      ((netlocOf "http://bit.ly.github.com".toList).map Char.toLower)) =
        true ∧
    (analyzeUrl (fun _ => .failure)
      "http://bit.ly.github.com".toList).1.is_suspicious = true ∧
    (analyzeUrl (fun _ => .failure)
      "http://bit.ly.github.com".toList).1.severity = "high" ∧
    (linkScan (fun _ => .failure)
      "http://bit.ly.github.com".toList).vulnerabilities.length = 1 := by
  refine ⟨by decide, by decide, by decide, by decide⟩

/-- C3, amended: a URL whose domain matches the safe list by substring is
never probed — the safe-list rule and all three rules before it return
without touching the network — and it is marked suspicious exactly when
the domain also matches one of the three earlier rules (suspicious-domain
substring, shortener substring, dotted-decimal IP search); in particular a
URL matching only the safe list never appears in the suspicious output. -/
theorem C3_safe_domain_no_probe (url : List Char)
    (probe : List Char → ProbeOutcome)
    (hsafe : safe_domains.any
      (containsSub ((netlocOf url).map Char.toLower)) = true) :
    (analyzeUrl probe url).2 = false ∧
    (analyzeUrl probe url).1.is_suspicious =
      (suspicious_domains.any
        (containsSub ((netlocOf url).map Char.toLower)) ||
       shortener_domains.any
        (containsSub ((netlocOf url).map Char.toLower)) ||
       pySearch ipRe ((netlocOf url).map Char.toLower)) := by
  by_cases h1 : suspicious_domains.any
      (containsSub ((netlocOf url).map Char.toLower)) = true
  · simp [analyzeUrl, h1]
  · by_cases h2 : shortener_domains.any
        (containsSub ((netlocOf url).map Char.toLower)) = true
    · simp [analyzeUrl, h1, h2]
    · by_cases h3 : pySearch ipRe ((netlocOf url).map Char.toLower) = true
      · simp [analyzeUrl, h1, h2, h3]
      · simp [analyzeUrl, h1, h2, h3, hsafe]

/-- Witness for C3's amended theorem at a concrete safe-domain URL. -/
theorem C3_safe_domain_no_probe_witness :
    (safe_domains.any (containsSub
      ((netlocOf "https://github.com/user".toList).map Char.toLower)) =
        true) ∧
    (analyzeUrl (fun _ => .status 200)
      "https://github.com/user".toList).2 = false ∧
    (analyzeUrl (fun _ => .status 200)
      "https://github.com/user".toList).1.is_suspicious =
      (suspicious_domains.any (containsSub
        ((netlocOf "https://github.com/user".toList).map Char.toLower)) ||
       shortener_domains.any (containsSub
        ((netlocOf "https://github.com/user".toList).map Char.toLower)) ||
       pySearch ipRe
        ((netlocOf "https://github.com/user".toList).map Char.toLower)) :=
  ⟨by decide, C3_safe_domain_no_probe _ _ (by decide)⟩

/-- C4, counterexample: a probe answered with the informational status 100
— which is not a 2xx/3xx status — reaches the probe step and is classified
NOT suspicious by the code, because the code only treats statuses of at
least 400 as errors, contradicting the claim that every non-2xx/3xx status
is suspicious with severity low. -/
theorem C4_counterexample :
    (analyzeUrl (fun _ => .status 100) "http://example.com".toList).2 =
      true ∧
    ¬ (200 ≤ 100 ∧ 100 < 400) ∧
    (analyzeUrl (fun _ => .status 100)
      "http://example.com".toList).1.is_suspicious = false := by
  refine ⟨by decide, by decide, by decide⟩

/-- C4, amended: for every URL that reaches the reachability probe, a
response status of at least 400 gives suspicious with severity low, a
smaller status gives not suspicious, and a timeout, connection failure or
probe exception gives suspicious with severity low; the analysis is a total
function, so the scan always completes with a result. -/
theorem C4_probe_classification (url : List Char)
    (probe : List Char → ProbeOutcome)
    (h : (analyzeUrl probe url).2 = true) :
    (analyzeUrl probe url).1 = expectedProbeAnalysis (probe url) := by
  simp only [analyzeUrl] at h ⊢
  by_cases h1 : suspicious_domains.any
      (containsSub (List.map Char.toLower (netlocOf url))) = true
  · simp [h1] at h
  · rw [if_neg h1] at h ⊢
    by_cases h2 : shortener_domains.any
        (containsSub (List.map Char.toLower (netlocOf url))) = true
    · simp [h2] at h
    · rw [if_neg h2] at h ⊢
      by_cases h3 : pySearch ipRe (List.map Char.toLower (netlocOf url)) = true
      · simp [h3] at h
      · rw [if_neg h3] at h ⊢
        by_cases h4 : safe_domains.any
            (containsSub (List.map Char.toLower (netlocOf url))) = true
        · simp [h4] at h
        · rw [if_neg h4] at h ⊢
          rcases hp : probe url with code | _
          · by_cases hc : code ≥ 400 <;> simp [expectedProbeAnalysis, hc]
          · simp [expectedProbeAnalysis]

/-- Witness for C4's amended theorem at a concrete probed URL. -/
theorem C4_probe_classification_witness :
    ((analyzeUrl (fun _ => .status 404) "http://example.com".toList).2 =
      true) ∧
    (analyzeUrl (fun _ => .status 404) "http://example.com".toList).1 =
      expectedProbeAnalysis (.status 404) :=
  ⟨by decide, C4_probe_classification _ _ (by decide)⟩

/-- C5, counterexample: on the text 5551234567, the phone pattern has
exactly one match and that match is the whole text, but the emitted
issue's examples list holds the empty string — `findall` on a pattern with
one capturing group returns the group text, here the unmatched optional
country-code group — not the matched string verbatim. -/
theorem C5_counterexample :
    (privacyScan "5551234567".toList).issues.map (fun i => i.examples) =
      [[[]]] ∧
    pyFindAll phoneRe false "5551234567".toList =
      ["5551234567".toList] ∧
    ([[]] : List (List Char)) ≠ ["5551234567".toList] := by
  refine ⟨by decide, by decide, by decide⟩

/-- C5, amended: one issue per pattern category with at least one match, in
catalogue order, with count equal to the match count; zero-match categories
are omitted (every emitted count is at least 1); examples are the first
three `findall` results — verbatim matched substrings of the text for every
category except phone-number, whose pattern has a capturing group, so its
examples are the captured country-code prefixes (possibly empty). -/
theorem C5_privacy_issue_shape (text : List Char) :
    (privacyScan text).issues.map (fun i => i.type) =
      (privacyPatterns.filter
        (fun pat => !(pyFindAll pat.2.1 pat.2.2 text).isEmpty)).map
        (fun pat => issueLabel pat.1) ∧
    (privacyScan text).issues.map (fun i => i.count) =
      (privacyPatterns.filter
        (fun pat => !(pyFindAll pat.2.1 pat.2.2 text).isEmpty)).map
        (fun pat => (pyFindAll pat.2.1 pat.2.2 text).length) ∧
    ((privacyScan text).issues.all fun i =>
      decide (1 ≤ i.count) && decide (i.examples.length = min i.count 3)) =
      true ∧
    ((privacyScan text).issues.all fun i =>
      (i.type == "Phone") || i.examples.all (containsSub text)) = true := by
  rw [privacyScan_issues_eq]
  refine ⟨?_, ?_, ?_, ?_⟩
  · rw [List.map_map]; rfl
  · rw [List.map_map]; rfl
  · rw [list_all_map]
    rw [List.all_eq_true]
    intro pat hpat
    obtain ⟨hmem, hcond⟩ := List.mem_filter.mp hpat
    have hne : pyFindAll pat.2.1 pat.2.2 text ≠ [] := by simpa using hcond
    have hlen : 1 ≤ (pyFindAll pat.2.1 pat.2.2 text).length :=
      Nat.one_le_iff_ne_zero.mpr (by simpa [List.length_eq_zero] using hne)
    simp [Function.comp, mkPrivacyIssue, Bool.and_eq_true,
      decide_eq_true_eq, List.length_take, Nat.min_comm, hlen]
  · rw [list_all_map]
    rw [List.all_eq_true]
    intro pat hpat
    obtain ⟨hmem, hcond⟩ := List.mem_filter.mp hpat
    have generic : ∀ r : Regex,
        (((pyFindAll r false text).take 3).all (containsSub text)) = true := by
      intro r
      rw [List.all_eq_true]
      intro e he
      exact pyFindAll_containsSub (List.mem_of_mem_take he)
    have hlabel : (issueLabel "phone" == "Phone") = true := by decide
    simp only [privacyPatterns, List.mem_cons, List.not_mem_nil,
      or_false] at hmem
    rcases hmem with rfl | rfl | rfl | rfl | rfl | rfl
    · simp [Function.comp, mkPrivacyIssue, generic]
    · simp [Function.comp, mkPrivacyIssue, hlabel]
    · simp [Function.comp, mkPrivacyIssue, generic]
    · simp [Function.comp, mkPrivacyIssue, generic]
    · simp [Function.comp, mkPrivacyIssue, generic]
    · simp [Function.comp, mkPrivacyIssue, generic]

/-- C6: the overall privacy risk level is high when any matched category is
high, else medium when any is medium, else low when anything matched, else
none; the text 123-45-6789 (one SSN-shaped substring and nothing else)
yields exactly one issue — category Ssn, count 1, risk level high — with
overall level high, and the empty text yields no issues and level none. -/
theorem C6_privacy_risk_level (text : List Char) :
    (privacyScan text).risk_level =
      (if (privacyScan text).issues.any (fun i => i.risk_level == "high")
        then "high"
       else if (privacyScan text).issues.any
          (fun i => i.risk_level == "medium") then "medium"
       else if !(privacyScan text).issues.isEmpty then "low"
       else "none") ∧
    privacyScan "123-45-6789".toList =
      ⟨[⟨"Ssn", 1, "high", ["123-45-6789".toList],
          get_recommendation "ssn"⟩], "high", ⟨1, 1, 1⟩⟩ ∧
    privacyScan [] = ⟨[], "none", ⟨0, 0, 0⟩⟩ := by
  refine ⟨rfl, by decide, by decide⟩

/-- C7, counterexample: on a text with no URLs, `LinkScanner.scan` returns
only the empty vulnerability list — the result carries no summary block at
all. -/
theorem C7_counterexample :
    (linkScan (fun _ => .failure) []).url_summary = none ∧
    (linkScan (fun _ => .failure) []).vulnerabilities = [] := by
  refine ⟨by decide, by decide⟩

/-- C7, amended: for every text containing at least one URL, the result
carries both the filtered vulnerability list and a summary block with the
total number of URLs found, the suspicious count (the length of the
vulnerability list) and the full analyzed URL list; when no URLs are found
the result is only an empty vulnerability list without a summary. -/
theorem C7_scan_summary (probe : List Char → ProbeOutcome)
    (text : List Char)
    (h : (pyFindAll urlRe false text).isEmpty = false) :
    (linkScan probe text).url_summary = some
      { total_urls := (pyFindAll urlRe false text).length
      , suspicious_urls := (linkScan probe text).vulnerabilities.length
      , analyzed_urls := pyFindAll urlRe false text } := by
  simp [linkScan, h]

/-- Witness for C7's amended theorem at a concrete URL-bearing text. -/
theorem C7_scan_summary_witness :
    ((pyFindAll urlRe false "http://tinyurl.com/abc".toList).isEmpty =
      false) ∧
    (linkScan (fun _ => .failure)
        "http://tinyurl.com/abc".toList).url_summary = some
      { total_urls :=
          (pyFindAll urlRe false "http://tinyurl.com/abc".toList).length
      , suspicious_urls :=
          (linkScan (fun _ => .failure)
            "http://tinyurl.com/abc".toList).vulnerabilities.length
      , analyzed_urls := pyFindAll urlRe false "http://tinyurl.com/abc".toList } :=
  ⟨by decide, C7_scan_summary _ _ (by decide)⟩

/-- C8, counterexample: when pdfplumber fails after extracting one page
(text A) and PyPDF2 then succeeds with one page (text B), the function
returns A-newline-B-newline — the partial primary text glued in front of
the fallback text — not the fallback strategy's own result B-newline
unchanged. -/
theorem C8_counterexample :
    extract_text_from_pdf [some "A".toList] true ["B".toList] false "" =
      .ok "A\nB\n".toList ∧
    pypdf2Text [] ["B".toList] = "B\n".toList ∧
    "A\nB\n".toList ≠ "B\n".toList := by
  refine ⟨rfl, rfl, by decide⟩

/-- C8, amended: the extraction tries pdfplumber first and on any failure
falls back to PyPDF2; a successful primary result is returned unchanged;
when the primary fails the returned fallback result is the primary's
partial text followed by the full secondary text; only the failure of the
final strategy surfaces as the terminal error. -/
theorem C8_extraction_fallback (pPages : List (Option (List Char)))
    (pFail : Bool) (sPages : List (List Char)) (sFail : Bool)
    (sErr : String) :
    extract_text_from_pdf pPages pFail sPages sFail sErr =
      (if pFail = false then .ok (pdfplumberText pPages)
       else if sFail = false then
         .ok (pdfplumberText pPages ++ pypdf2Text [] sPages)
       else .error ("Could not extract text: " ++ sErr)) := by
  unfold extract_text_from_pdf
  by_cases hp : pFail = false
  · simp [hp]
  · rw [if_neg hp, if_neg hp]
    rw [pypdf2Text_append sPages (pdfplumberText pPages)]

/-- C9: the statistics report the word count as the number of
whitespace-delimited tokens (equivalently, the number of token-start
positions), the line count as the number of newline-separated segments —
one more than the newline count, a trailing newline therefore contributing
a final empty segment — and the empty text has word count 0. -/
theorem C9_statistics (text : List Char) :
    (analyzeStatistics text).word_count = tokenStartCount true text ∧
    (analyzeStatistics text).line_count = text.count '\n' + 1 ∧
    (analyzeStatistics []).word_count = 0 := by
  refine ⟨?_, ?_, rfl⟩
  · show (pySplitWs text).length = _
    unfold pySplitWs
    rw [length_wsTokensAux text []]
    simp
  · show (pySplitNl text).length = _
    exact length_pySplitNl text

/-- C10: for every successfully processed upload, the response has an empty
vulnerabilities list, exactly the two privacy-issue entries Email and Phone
whose counts are each 0 or 1 no matter how many matches were extracted, a
risk score of 25 exactly when fewer than 3 skills were found and 15
otherwise, and hence always risk level low. -/
theorem C10_scan_response (filename file_type name : String)
    (emails phones extracted_skills : List String)
    (experience_years : Nat) :
    (scan_resume_response filename file_type name emails phones
      extracted_skills experience_years).vulnerabilities = [] ∧
    (scan_resume_response filename file_type name emails phones
      extracted_skills experience_years).privacy_issues.map
      (fun pi => pi.type) = ["Email", "Phone"] ∧
    ((scan_resume_response filename file_type name emails phones
      extracted_skills experience_years).privacy_issues.all fun pi =>
        pi.count == 0 || pi.count == 1) = true ∧
    (scan_resume_response filename file_type name emails phones
      extracted_skills experience_years).risk_score =
      (if extracted_skills.length < 3 then 25 else 15) ∧
    (scan_resume_response filename file_type name emails phones
      extracted_skills experience_years).risk_level = "low" := by
  unfold scan_resume_response
  refine ⟨rfl, rfl, ?_, ?_, ?_⟩
  · by_cases he : emails.head?.getD "Email not found" ≠ "Email not found" <;>
      by_cases hp : phones.head?.getD "Phone not found" ≠ "Phone not found" <;>
        simp [he, hp]
  · by_cases h3 : extracted_skills.length < 3 <;> simp [h3]
  · by_cases h3 : extracted_skills.length < 3 <;> simp [h3]

end Vigyantra




